import Mathlib

/-!
Shallow embedding of the shader/buffer resource layer of the RustModeling
repository (crate `rustCad`, files `src/lib.rs` and `src/main.rs`), together
with theorems settling the frozen claims about it.

Machine integers (`u32`) are modelled as `Nat` with explicit reduction
modulo `2 ^ 32` at every wrapping operation.  Strings are modelled by their
lists of UTF-16 code units, computed faithfully (including surrogate pairs)
from the Lean `String`.  The graphics device (OpenGL) is an external
collaborator: its responses (allocated handles, compile/link status,
diagnostic logs) are a parameter `Device`, and every GL call an embedded
function performs is recorded in an explicit trace of `GLCall` events, so
that claims about which device calls happen (and which objects are created
and disposed) become statements about the trace.
-/

namespace RustCad

/-- UTF-16 code units of a single character, as in Rust's `encode_utf16`:
code points below 0x10000 give one unit, others a surrogate pair. -/
def charUnits (c : Char) : List Nat :=
  let n := c.toNat
  if n < 65536 then [n]
  else [55296 + (n - 65536) / 1024, 56320 + (n - 65536) % 1024]

/-- The UTF-16 code units of a string (`str::encode_utf16` in Rust). -/
def strUnits (s : String) : List Nat :=
  s.data.flatMap charUnits

/-- Modulus of `u32` arithmetic. -/
def M32 : Nat := 4294967296

/-- `u32::wrapping_add`. -/
def wadd (a b : Nat) : Nat := (a + b) % M32

/-- `u32::wrapping_sub` (the subtrahend is first reduced, as a `u32` value is). -/
def wsub (a b : Nat) : Nat := (a + (M32 - b % M32)) % M32

/-- `u32` left shift (high bits are discarded). -/
def wshl (a k : Nat) : Nat := a * 2 ^ k % M32

/-- One step of the sdbm hash from `Hashable::hash` (src/lib.rs:330-344):
`hash = u32::from(c).wrapping_add(hash << 6).wrapping_add(hash << 16).wrapping_sub(hash)`. -/
def hashStep (h c : Nat) : Nat :=
  wsub (wadd (wadd c (wshl h 6)) (wshl h 16)) h

/-- `Hashable::hash` on a list of UTF-16 code units: fold of `hashStep` from 0. -/
def hashU (units : List Nat) : Nat :=
  units.foldl hashStep 0

/-- `Hashable::hash for str` (src/lib.rs:330-344): the sdbm hash of the
string's UTF-16 code units. -/
def hash (s : String) : Nat :=
  hashU (strUnits s)

/-- The loop of `Hashable::hashShader` (src/lib.rs:346-359): accumulate
`hashStep` but stop (`break`) at the first code unit equal to 35 (`#`). -/
def hashShaderU : Nat → List Nat → Nat
  | h, [] => h
  | h, c :: rest => if c = 35 then h else hashShaderU (hashStep h c) rest

/-- `Hashable::hashShader for str` (src/lib.rs:346-359). -/
def hashShader (s : String) : Nat :=
  hashShaderU 0 (strUnits s)

/-- Transcribed from the spec's words (section 4.5, for the refinement claim
C5): "polynomial accumulation: `hash = code_unit + (hash<<6) + (hash<<16)
- hash` for each unit, wrapping on overflow", starting from 0, over the
UTF-16 code units. -/
def fingerprintSpec (units : List Nat) : Nat :=
  units.foldl
    (fun h c => (c + (h <<< 6) % 2 ^ 32 + (h <<< 16) % 2 ^ 32 + (2 ^ 32 - h % 2 ^ 32)) % 2 ^ 32)
    0

theorem hashStep_eq_specStep (h c : Nat) :
    hashStep h c
      = (c + (h <<< 6) % 2 ^ 32 + (h <<< 16) % 2 ^ 32 + (2 ^ 32 - h % 2 ^ 32)) % 2 ^ 32 := by
  simp only [hashStep, wsub, wadd, wshl, M32, Nat.shiftLeft_eq]
  norm_num
  omega

theorem foldl_hashStep_eq_spec (units : List Nat) : ∀ h : Nat,
    units.foldl hashStep h
      = units.foldl
          (fun h c =>
            (c + (h <<< 6) % 2 ^ 32 + (h <<< 16) % 2 ^ 32 + (2 ^ 32 - h % 2 ^ 32)) % 2 ^ 32)
          h := by
  induction units with
  | nil => intro h; rfl
  | cons c rest ih =>
      intro h
      simp only [List.foldl_cons, hashStep_eq_specStep, ih]

/-- C5: the fingerprint function is the stated rolling hash: for every text,
`hash` equals the fold over the UTF-16 code units, starting from 0, of
`hash := code_unit + (hash<<6) + (hash<<16) - hash` with all arithmetic
wrapping modulo `2 ^ 32`; and it is deterministic (two applications to the
same text agree). -/
theorem c5_fingerprint_is_spec_fold (s : String) :
    hash s = fingerprintSpec (strUnits s) ∧ hash s = hash s := by
  constructor
  · simp only [hash, hashU, fingerprintSpec]
    exact foldl_hashStep_eq_spec (strUnits s) 0
  · rfl

theorem hashShaderU_append_of_no_hash (S : List Nat) (X : List Nat)
    (hS : ∀ c ∈ S, c ≠ 35) : ∀ h : Nat,
    hashShaderU h (S ++ 35 :: X) = S.foldl hashStep h := by
  induction S with
  | nil =>
      intro h
      simp [hashShaderU]
  | cons c rest ih =>
      intro h
      have hc : c ≠ 35 := hS c (by simp)
      have hrest : ∀ x ∈ rest, x ≠ 35 := fun x hx => hS x (by simp [hx])
      simp only [List.cons_append, hashShaderU, if_neg hc, List.foldl_cons]
      exact ih hrest (hashStep h c)

/-- C6: fingerprint-stable truncation: for every prefix of code units not
containing 35 (`#`) and all suffixes X and Y, `hashShader` of
prefix ++ `#` ++ X equals `hashShader` of prefix ++ `#` ++ Y equals
`hash` of the prefix; the same at string level, and concretely
`hashShader "abc#xyz" = hashShader "abc#qqq" = hash "abc"`. -/
theorem c6_stable_truncation (S X Y : List Nat) (hS : ∀ c ∈ S, c ≠ 35) :
    (hashShaderU 0 (S ++ 35 :: X) = hashU S ∧
     hashShaderU 0 (S ++ 35 :: Y) = hashU S) ∧
    (∀ s x : String, (∀ c ∈ strUnits s, c ≠ 35) →
      hashShader (s ++ "#" ++ x) = hash s) ∧
    (hashShader "abc#xyz" = hash "abc" ∧ hashShader "abc#qqq" = hash "abc") := by
  refine ⟨⟨hashShaderU_append_of_no_hash S X hS 0,
          hashShaderU_append_of_no_hash S Y hS 0⟩, ?_, by decide⟩
  intro s x hs
  have hunits : strUnits (s ++ "#" ++ x) = strUnits s ++ 35 :: strUnits x := by
    simp [strUnits, String.data_append, charUnits]
  simp only [hashShader, hash, hunits]
  exact hashShaderU_append_of_no_hash (strUnits s) (strUnits x) hs 0

theorem c6_stable_truncation_witness :
    ((∀ c ∈ [97, 98, 99], c ≠ 35) ∧
      hashShaderU 0 ([97, 98, 99] ++ 35 :: [120]) = hashU [97, 98, 99]) ∧
    hashShader "abc#xyz" = hash "abc" := by
  have h := c6_stable_truncation [97, 98, 99] [120] [113] (by decide)
  exact ⟨⟨by decide, h.1.1⟩, h.2.2.1⟩

/-- The embedded vertex shader source (src/main.rs:20-31, a raw string that
begins with the character `#`). -/
def VERT_SHADER : String :=
  "#version 330 core\n  layout (location = 0) in vec3 pos;\n\n    out VS_OUTPUT \x7b\n        vec3 colPos;\n    \x7dOUT;\n\n  void main() \x7b\n    gl_Position = vec4(pos.x, pos.y, pos.z, 1.0);\n    OUT.colPos = pos;\n  \x7d\n"

/-- The embedded fragment shader source (src/main.rs:33-43, a raw string that
begins with the character `#`). -/
def FRAG_SHADER : String :=
  "#version 330 core\n  out vec4 final_color;\n\n  in VS_OUTPUT \x7b\n    vec3 colPos;\n  \x7d IN;\n\n  void main() \x7b\n    final_color = vec4(IN.colPos, 1.0);;\n  \x7d\n"

/-- C9: every text whose first UTF-16 code unit is 35 (`#`) has `hashShader`
fingerprint 0; in particular both embedded shader sources, which begin with
`#version`, have stable fingerprint 0, so `hashShader` cannot tell them
apart. -/
theorem c9_hash_shader_zero_on_hash_prefix :
    (∀ X : List Nat, hashShaderU 0 (35 :: X) = 0) ∧
    (∀ s : String, hashShader ("#" ++ s) = 0) ∧
    hashShader VERT_SHADER = 0 ∧ hashShader FRAG_SHADER = 0 ∧
    hashShader VERT_SHADER = hashShader FRAG_SHADER := by
  refine ⟨fun X => by simp [hashShaderU], fun s => ?_, by decide, by decide, by decide⟩
  have hunits : strUnits ("#" ++ s) = 35 :: strUnits s := by
    simp [strUnits, String.data_append, charUnits]
  simp [hashShader, hunits, hashShaderU]

/-- Shader stage kinds (src/lib.rs:15-22). -/
inductive ShaderType where
  | Vertex
  | Fragment
deriving DecidableEq, Repr

/-- `Shader(pub GLuint)` (src/lib.rs:24): wraps one compiled-shader handle. -/
structure Shader where
  handle : Nat
deriving DecidableEq, Repr

/-- `VertexArray(pub GLuint)` (src/lib.rs:26). -/
structure VertexArray where
  handle : Nat
deriving DecidableEq, Repr

/-- `VertexBuffer(pub GLuint)` (src/lib.rs:28). -/
structure VertexBuffer where
  handle : Nat
deriving DecidableEq, Repr

/-- `ShaderProgram(pub GLuint, Vec<u32>)` (src/lib.rs:30): a program handle
plus the interleaved fingerprint/handle list. -/
structure ShaderProgram where
  handle : Nat
  table : List Nat
deriving DecidableEq, Repr

/-- One GL call issued by the embedded operations.  `compileShaderCall`
carries the source assigned by the preceding `setSource`, so that claims
about which stages were compiled are statements about the trace. -/
inductive GLCall where
  | createShaderCall (ret : Nat)
  | setSource (h : Nat) (src : String)
  | compileShaderCall (h : Nat) (src : String)
  | deleteShaderCall (h : Nat)
  | createProgramCall (ret : Nat)
  | attachCall (p h : Nat)
  | linkCall (p : Nat)
  | deleteProgramCall (p : Nat)
deriving DecidableEq, Repr

/-- The graphics device's responses, an external collaborator: the handle
each allocation call returns (0 is the failure sentinel), whether a source
compiles, its diagnostic log, and the link status and log.  `from_vert_frag`
creates at most one program, one vertex shader and one fragment shader, so
one response per allocation site suffices. -/
structure Device where
  progAlloc : Nat
  vertAlloc : Nat
  fragAlloc : Nat
  compileOk : String → Bool
  shaderLog : String → String
  linkOk : Bool
  progLog : String

/-- `VertexArray::new` (src/lib.rs:34-49): `glGenVertexArrays` wrote `alloc`;
the result is `Some` exactly when `alloc` is not the zero sentinel. -/
def VertexArray.new (alloc : Nat) : Option VertexArray :=
  if alloc ≠ 0 then some ⟨alloc⟩ else none

/-- `VertexBuffer::new` (src/lib.rs:63-77): same zero-sentinel policy. -/
def VertexBuffer.new (alloc : Nat) : Option VertexBuffer :=
  if alloc ≠ 0 then some ⟨alloc⟩ else none

/-- `Shader::new` (src/lib.rs:98-105): `glCreateShader` for stage `ty`
returned `alloc`; the stage kind only selects the GL enum passed to the
device. -/
def Shader.new (ty : ShaderType) (alloc : Nat) : Option Shader :=
  if alloc ≠ 0 then some ⟨alloc⟩ else none

/-- `ShaderProgram::new` (src/lib.rs:184-191): `glCreateProgram` returned
`alloc`; a fresh program starts with an empty list (`vec![]`). -/
def ShaderProgram.new (alloc : Nat) : Option ShaderProgram :=
  if alloc ≠ 0 then some ⟨alloc, []⟩ else none

/-- `Shader::from_source` (src/lib.rs:164-175): create, set source, compile;
on compile failure capture the log, delete the shader, return the log as the
error.  Returns the result together with the GL calls issued. -/
def Shader.from_source (d : Device) (ty : ShaderType) (alloc : Nat) (source : String) :
    Except String Shader × List GLCall :=
  match Shader.new ty alloc with
  | none => (Except.error "Could not allocate new shader", [GLCall.createShaderCall alloc])
  | some id =>
      let tr := [GLCall.createShaderCall alloc, GLCall.setSource id.handle source,
                 GLCall.compileShaderCall id.handle source]
      if d.compileOk source then
        (Except.ok id, tr)
      else
        (Except.error (d.shaderLog source), tr ++ [GLCall.deleteShaderCall id.handle])

/-- `ShaderProgram::attach_shader` (src/lib.rs:194-196): issues
`glAttachShader` only; the program value (in particular its list) is
unchanged. -/
def ShaderProgram.attach_shader (p : ShaderProgram) (s : Shader) : ShaderProgram × GLCall :=
  (p, GLCall.attachCall p.handle s.handle)

/-- `Iterator::position`: index of the first element satisfying the
predicate. -/
def position (pr : α → Bool) : List α → Option Nat
  | [] => none
  | x :: xs => if pr x then some 0 else (position pr xs).map (· + 1)

/-- `ShaderProgram::get_shader` (src/lib.rs:203-210): find the first list
entry equal to `hash shader` (`usize::MAX` when absent), and if found index
the list at `index + 1`.  The out-of-bounds panic of `self.1[(index + 1)]`
is modelled as `Except.error ()`. -/
def ShaderProgram.get_shader (p : ShaderProgram) (shader : String) :
    Except Unit (Option Nat) :=
  match position (fun x => x == hash shader) p.table with
  | none => Except.ok none
  | some index =>
      match p.table.get? (index + 1) with
      | some v => Except.ok (some v)
      | none => Except.error ()

/-- `ShaderProgram::from_vert_frag` (src/lib.rs:257-287): allocate a program,
compile both shaders (tagging errors), attach each and push its
`(hash, handle)` pair, link, delete both shaders, and on link failure delete
the program.  Returns the result together with the full GL call trace. -/
def ShaderProgram.from_vert_frag (d : Device) (vert frag : String) :
    Except String ShaderProgram × List GLCall :=
  match ShaderProgram.new d.progAlloc with
  | none => (Except.error "Could not allocate a program", [GLCall.createProgramCall d.progAlloc])
  | some p =>
      let t0 := [GLCall.createProgramCall d.progAlloc]
      match Shader.from_source d ShaderType.Vertex d.vertAlloc vert with
      | (Except.error e, tv) => (Except.error ("Vertex Compile Error: " ++ e), t0 ++ tv)
      | (Except.ok v, tv) =>
          match Shader.from_source d ShaderType.Fragment d.fragAlloc frag with
          | (Except.error e, tf) => (Except.error ("Fragment Compile Error: " ++ e), t0 ++ tv ++ tf)
          | (Except.ok f, tf) =>
              let pa := p.attach_shader v
              let p1 : ShaderProgram := ⟨pa.1.handle, pa.1.table ++ [hash vert, v.handle]⟩
              let pb := p1.attach_shader f
              let p2 : ShaderProgram := ⟨pb.1.handle, pb.1.table ++ [hash frag, f.handle]⟩
              let tr := t0 ++ tv ++ tf ++
                [pa.2, pb.2, GLCall.linkCall p2.handle,
                 GLCall.deleteShaderCall v.handle, GLCall.deleteShaderCall f.handle]
              if d.linkOk then
                (Except.ok p2, tr)
              else
                (Except.error ("Program Link Error: " ++ d.progLog),
                 tr ++ [GLCall.deleteProgramCall p2.handle])

/-- Shader handles successfully created in a trace (a zero return means the
allocation failed and no object exists). -/
def createdShaders (tr : List GLCall) : List Nat :=
  tr.filterMap fun c =>
    match c with
    | GLCall.createShaderCall r => if r ≠ 0 then some r else none
    | _ => none

/-- Shader handles deleted in a trace. -/
def deletedShaders (tr : List GLCall) : List Nat :=
  tr.filterMap fun c =>
    match c with
    | GLCall.deleteShaderCall h => some h
    | _ => none

/-- Program handles successfully created in a trace. -/
def createdPrograms (tr : List GLCall) : List Nat :=
  tr.filterMap fun c =>
    match c with
    | GLCall.createProgramCall r => if r ≠ 0 then some r else none
    | _ => none

/-- Program handles deleted in a trace. -/
def deletedPrograms (tr : List GLCall) : List Nat :=
  tr.filterMap fun c =>
    match c with
    | GLCall.deleteProgramCall h => some h
    | _ => none

/-- Shader objects still allocated at the end of a trace. -/
def leakedShaders (tr : List GLCall) : List Nat :=
  (createdShaders tr).filter fun h => !((deletedShaders tr).contains h)

/-- Program objects still allocated at the end of a trace. -/
def leakedPrograms (tr : List GLCall) : List Nat :=
  (createdPrograms tr).filter fun h => !((deletedPrograms tr).contains h)

/-- The sources for which a compile call was issued, in order. -/
def compiledSources (tr : List GLCall) : List String :=
  tr.filterMap fun c =>
    match c with
    | GLCall.compileShaderCall _ s => some s
    | _ => none

/-- The programs for which a link call was issued. -/
def linkCalls (tr : List GLCall) : List Nat :=
  tr.filterMap fun c =>
    match c with
    | GLCall.linkCall p => some p
    | _ => none

theorem position_eq_none (pr : α → Bool) (l : List α) (h : ∀ x ∈ l, pr x = false) :
    position pr l = none := by
  induction l with
  | nil => rfl
  | cons x xs ih =>
      have hx : pr x = false := h x (by simp)
      simp [position, hx, ih fun y hy => h y (by simp [hy])]

theorem from_vert_frag_success (d : Device) (vert frag : String)
    (hp : d.progAlloc ≠ 0) (hv : d.vertAlloc ≠ 0) (hf : d.fragAlloc ≠ 0)
    (hcv : d.compileOk vert = true) (hcf : d.compileOk frag = true)
    (hl : d.linkOk = true) :
    ShaderProgram.from_vert_frag d vert frag
      = (Except.ok ⟨d.progAlloc, [hash vert, d.vertAlloc, hash frag, d.fragAlloc]⟩,
         [GLCall.createProgramCall d.progAlloc,
          GLCall.createShaderCall d.vertAlloc, GLCall.setSource d.vertAlloc vert,
          GLCall.compileShaderCall d.vertAlloc vert,
          GLCall.createShaderCall d.fragAlloc, GLCall.setSource d.fragAlloc frag,
          GLCall.compileShaderCall d.fragAlloc frag,
          GLCall.attachCall d.progAlloc d.vertAlloc,
          GLCall.attachCall d.progAlloc d.fragAlloc,
          GLCall.linkCall d.progAlloc,
          GLCall.deleteShaderCall d.vertAlloc, GLCall.deleteShaderCall d.fragAlloc]) := by
  simp [ShaderProgram.from_vert_frag, ShaderProgram.new, Shader.from_source, Shader.new,
        ShaderProgram.attach_shader, hp, hv, hf, hcv, hcf, hl]

/-- C7: zero-sentinel allocation policy: for each of the four wrapper types,
`new` fails exactly when the device returned the zero sentinel, and
otherwise yields an object wrapping the returned (hence non-zero) handle. -/
theorem c7_zero_sentinel (n : Nat) (ty : ShaderType) :
    (VertexBuffer.new n = none ↔ n = 0) ∧
    (∀ b : VertexBuffer, VertexBuffer.new n = some b → b.handle = n ∧ b.handle ≠ 0) ∧
    (VertexArray.new n = none ↔ n = 0) ∧
    (∀ a : VertexArray, VertexArray.new n = some a → a.handle = n ∧ a.handle ≠ 0) ∧
    (Shader.new ty n = none ↔ n = 0) ∧
    (∀ s : Shader, Shader.new ty n = some s → s.handle = n ∧ s.handle ≠ 0) ∧
    (ShaderProgram.new n = none ↔ n = 0) ∧
    (∀ p : ShaderProgram, ShaderProgram.new n = some p → p.handle = n ∧ p.handle ≠ 0) := by
  by_cases hn : n = 0
  · subst hn
    refine ⟨by simp [VertexBuffer.new], ?_, by simp [VertexArray.new], ?_,
            by simp [Shader.new], ?_, by simp [ShaderProgram.new], ?_⟩ <;>
      intro o ho <;>
      simp [VertexBuffer.new, VertexArray.new, Shader.new, ShaderProgram.new] at ho
  · refine ⟨by simp [VertexBuffer.new, hn], ?_, by simp [VertexArray.new, hn], ?_,
            by simp [Shader.new, hn], ?_, by simp [ShaderProgram.new, hn], ?_⟩ <;>
      intro o ho <;>
      simp [VertexBuffer.new, VertexArray.new, Shader.new, ShaderProgram.new, hn] at ho <;>
      subst ho <;> exact ⟨rfl, hn⟩

theorem c7_zero_sentinel_witness :
    (VertexBuffer.new 5 = none ↔ (5 : Nat) = 0) ∧
    ((⟨5⟩ : VertexBuffer).handle = 5 ∧ (⟨5⟩ : VertexBuffer).handle ≠ 0) ∧
    ShaderProgram.new 0 = none := by
  refine ⟨(c7_zero_sentinel 5 ShaderType.Vertex).1,
          (c7_zero_sentinel 5 ShaderType.Vertex).2.1 ⟨5⟩ rfl, ?_⟩
  exact (c7_zero_sentinel 0 ShaderType.Vertex).2.2.2.2.2.2.1.mpr rfl

/-- A device on which every stage succeeds; the program handle is 1, the
vertex shader handle 5, the fragment shader handle 7. -/
def dOk : Device :=
  { progAlloc := 1, vertAlloc := 5, fragAlloc := 7,
    compileOk := fun _ => true, shaderLog := fun _ => "",
    linkOk := true, progLog := "" }

/-- A device that compiles nothing: every compile fails with log "bad". -/
def dVertFail : Device :=
  { progAlloc := 1, vertAlloc := 2, fragAlloc := 3,
    compileOk := fun _ => false, shaderLog := fun _ => "bad",
    linkOk := true, progLog := "" }

/-- A device like `dOk` whose vertex shader handle 98 collides with the
fingerprint of the fragment source `"b"` (`hash "b" = 98`). -/
def dCollide : Device :=
  { progAlloc := 1, vertAlloc := 98, fragAlloc := 7,
    compileOk := fun _ => true, shaderLog := fun _ => "",
    linkOk := true, progLog := "" }

/-- C1 counterexample: on the device `dCollide` the program built from
sources "a" and "b" records the pair `(hash "b", 7) = (98, 7)` for the
fragment shader, yet `get_shader "b"` returns `some 98` (the vertex
shader's handle, matched first in the interleaved list), not the recorded
handle `some 7`. -/
theorem c1_lookup_roundtrip_cex :
    (ShaderProgram.from_vert_frag dCollide "a" "b").1
      = Except.ok ⟨1, [97, 98, 98, 7]⟩ ∧
    ShaderProgram.get_shader ⟨1, [97, 98, 98, 7]⟩ "b" = Except.ok (some 98) ∧
    (Except.ok (some 98) : Except Unit (Option Nat)) ≠ Except.ok (some 7) := by
  refine ⟨rfl, rfl, by simp⟩

/-- C1 (amended): on a program built by `from_vert_frag`, `get_shader`
applied to the vertex source always returns the vertex shader's handle;
applied to the fragment source it returns the fragment shader's handle
provided the fragment fingerprint differs from the vertex fingerprint and
from the vertex shader's handle (otherwise an earlier list entry matches
first); and applied to a text whose fingerprint equals no element of the
list it returns none. -/
theorem c1_lookup_roundtrip_amended (d : Device) (vert frag : String)
    (hp : d.progAlloc ≠ 0) (hv : d.vertAlloc ≠ 0) (hf : d.fragAlloc ≠ 0)
    (hcv : d.compileOk vert = true) (hcf : d.compileOk frag = true)
    (hl : d.linkOk = true)
    (hne1 : hash frag ≠ hash vert) (hne2 : hash frag ≠ d.vertAlloc) :
    ∀ p : ShaderProgram, (ShaderProgram.from_vert_frag d vert frag).1 = Except.ok p →
      ShaderProgram.get_shader p vert = Except.ok (some d.vertAlloc) ∧
      ShaderProgram.get_shader p frag = Except.ok (some d.fragAlloc) ∧
      ∀ q : String, hash q ∉ p.table → ShaderProgram.get_shader p q = Except.ok none := by
  intro p hsucc
  rw [from_vert_frag_success d vert frag hp hv hf hcv hcf hl] at hsucc
  simp only [Except.ok.injEq] at hsucc
  subst hsucc
  refine ⟨?_, ?_, ?_⟩
  · simp [ShaderProgram.get_shader, position]
  · simp [ShaderProgram.get_shader, position, Ne.symm hne1, Ne.symm hne2]
  · intro q hq
    have hnone : position (fun x => x == hash q)
        [hash vert, d.vertAlloc, hash frag, d.fragAlloc] = none := by
      refine position_eq_none _ _ fun x hx => ?_
      simp only [beq_eq_false_iff_ne, ne_eq]
      exact fun he => hq (he ▸ hx)
    simp [ShaderProgram.get_shader, hnone]

theorem c1_lookup_roundtrip_amended_witness :
    (hash "b" ≠ hash "a" ∧ hash "b" ≠ dOk.vertAlloc) ∧
    ShaderProgram.get_shader ⟨1, [97, 5, 98, 7]⟩ "a" = Except.ok (some 5) ∧
    ShaderProgram.get_shader ⟨1, [97, 5, 98, 7]⟩ "b" = Except.ok (some 7) := by
  have h := c1_lookup_roundtrip_amended dOk "a" "b"
    (by decide) (by decide) (by decide) rfl rfl rfl (by decide) (by decide)
    ⟨1, [97, 5, 98, 7]⟩ rfl
  exact ⟨⟨by decide, by decide⟩, h.1, h.2.1⟩

/-- C2 counterexample: `attach_shader` leaves the program's list unchanged;
attaching a shader with handle 5 built from source "a" to a program with an
empty list yields an empty list, not the claimed one-pair append. -/
theorem c2_attach_appends_cex :
    (ShaderProgram.attach_shader ⟨1, []⟩ ⟨5⟩).1.table = [] ∧
    ([] : List Nat) ≠ [] ++ [hash "a", 5] := by
  refine ⟨rfl, by decide⟩

/-- C2 (amended): `attach_shader` itself only issues the GL attach call and
leaves the program value (in particular its list) unchanged; the appends are
performed separately by `from_vert_frag`, which after attaching each shader
pushes its `(fingerprint, handle)` pair, so a successfully built program's
list is the empty list with the vertex pair and then the fragment pair
appended. -/
theorem c2_attach_amended (p : ShaderProgram) (s : Shader) (d : Device)
    (vert frag : String)
    (hp : d.progAlloc ≠ 0) (hv : d.vertAlloc ≠ 0) (hf : d.fragAlloc ≠ 0)
    (hcv : d.compileOk vert = true) (hcf : d.compileOk frag = true)
    (hl : d.linkOk = true) :
    (ShaderProgram.attach_shader p s).1 = p ∧
    (ShaderProgram.from_vert_frag d vert frag).1
      = Except.ok ⟨d.progAlloc,
          (([] ++ [hash vert, d.vertAlloc]) ++ [hash frag, d.fragAlloc])⟩ := by
  refine ⟨rfl, ?_⟩
  rw [from_vert_frag_success d vert frag hp hv hf hcv hcf hl]
  simp

theorem c2_attach_amended_witness :
    (ShaderProgram.attach_shader ⟨1, []⟩ ⟨5⟩).1 = (⟨1, []⟩ : ShaderProgram) ∧
    (ShaderProgram.from_vert_frag dOk "a" "b").1
      = Except.ok ⟨1, (([] ++ [hash "a", 5]) ++ [hash "b", 7])⟩ := by
  exact c2_attach_amended ⟨1, []⟩ ⟨5⟩ dOk "a" "b"
    (by decide) (by decide) (by decide) rfl rfl rfl

/-- C3 counterexample: on the device `dVertFail` the vertex compile fails;
`from_vert_frag` returns the error, yet the program object it allocated
(handle 1) is never deleted — the trace leaves one allocated program, so the
build does leave persistent state. -/
theorem c3_failure_atomicity_cex :
    (ShaderProgram.from_vert_frag dVertFail "a" "b").1
      = Except.error ("Vertex Compile Error: bad") ∧
    leakedPrograms (ShaderProgram.from_vert_frag dVertFail "a" "b").2 = [1] ∧
    ([1] : List Nat) ≠ [] := by
  refine ⟨rfl, rfl, by decide⟩

/-- C3 (amended): a shader that fails to compile is itself disposed before
its error returns, and on a link failure every created object (both shaders
and the program) is disposed before the error returns; but on a vertex
compile failure the program object remains allocated, and on a fragment
compile failure both the program and the compiled vertex shader remain
allocated. -/
theorem c3_failure_atomicity_amended (d : Device) (vert frag : String)
    (hp : d.progAlloc ≠ 0) (hv : d.vertAlloc ≠ 0) (hf : d.fragAlloc ≠ 0)
    (hvf : d.vertAlloc ≠ d.fragAlloc) :
    (d.compileOk vert = false →
      leakedShaders (ShaderProgram.from_vert_frag d vert frag).2 = [] ∧
      leakedPrograms (ShaderProgram.from_vert_frag d vert frag).2 = [d.progAlloc]) ∧
    (d.compileOk vert = true → d.compileOk frag = false →
      leakedShaders (ShaderProgram.from_vert_frag d vert frag).2 = [d.vertAlloc] ∧
      leakedPrograms (ShaderProgram.from_vert_frag d vert frag).2 = [d.progAlloc]) ∧
    (d.compileOk vert = true → d.compileOk frag = true → d.linkOk = false →
      (ShaderProgram.from_vert_frag d vert frag).1
        = Except.error ("Program Link Error: " ++ d.progLog) ∧
      leakedShaders (ShaderProgram.from_vert_frag d vert frag).2 = [] ∧
      leakedPrograms (ShaderProgram.from_vert_frag d vert frag).2 = []) := by
  refine ⟨?_, ?_, ?_⟩
  · intro hcv
    simp [ShaderProgram.from_vert_frag, ShaderProgram.new, Shader.from_source, Shader.new,
          hp, hv, hf, hcv, leakedShaders, leakedPrograms,
          createdShaders, deletedShaders, createdPrograms, deletedPrograms,
          List.filterMap, List.filter]
  · intro hcv hcf
    simp [ShaderProgram.from_vert_frag, ShaderProgram.new, Shader.from_source, Shader.new,
          hp, hv, hf, hcv, hcf, leakedShaders, leakedPrograms,
          createdShaders, deletedShaders, createdPrograms, deletedPrograms,
          List.filterMap, List.filter, List.contains, hvf]
  · intro hcv hcf hl
    simp [ShaderProgram.from_vert_frag, ShaderProgram.new, Shader.from_source, Shader.new,
          ShaderProgram.attach_shader,
          hp, hv, hf, hcv, hcf, hl, leakedShaders, leakedPrograms,
          createdShaders, deletedShaders, createdPrograms, deletedPrograms,
          List.filterMap, List.filter, List.contains]

theorem c3_failure_atomicity_amended_witness :
    leakedShaders (ShaderProgram.from_vert_frag dVertFail "a" "b").2 = [] ∧
    leakedPrograms (ShaderProgram.from_vert_frag dVertFail "a" "b").2 = [dVertFail.progAlloc] := by
  exact (c3_failure_atomicity_amended dVertFail "a" "b"
    (by decide) (by decide) (by decide) (by decide)).1 rfl

/-- C4: build pipeline short-circuit: when the device allocates all objects,
a vertex compile failure makes `from_vert_frag` return exactly
"Vertex Compile Error: " followed by the vertex diagnostic log with the
vertex source the only source ever compiled (the fragment stage is never
attempted); a fragment compile failure returns "Fragment Compile Error: "
followed by the fragment log and no link call is issued; and a link failure
returns "Program Link Error: " followed by the program log. -/
theorem c4_short_circuit (d : Device) (vert frag : String)
    (hp : d.progAlloc ≠ 0) (hv : d.vertAlloc ≠ 0) (hf : d.fragAlloc ≠ 0) :
    (d.compileOk vert = false →
      (ShaderProgram.from_vert_frag d vert frag).1
        = Except.error ("Vertex Compile Error: " ++ d.shaderLog vert) ∧
      compiledSources (ShaderProgram.from_vert_frag d vert frag).2 = [vert]) ∧
    (d.compileOk vert = true → d.compileOk frag = false →
      (ShaderProgram.from_vert_frag d vert frag).1
        = Except.error ("Fragment Compile Error: " ++ d.shaderLog frag) ∧
      compiledSources (ShaderProgram.from_vert_frag d vert frag).2 = [vert, frag] ∧
      linkCalls (ShaderProgram.from_vert_frag d vert frag).2 = []) ∧
    (d.compileOk vert = true → d.compileOk frag = true → d.linkOk = false →
      (ShaderProgram.from_vert_frag d vert frag).1
        = Except.error ("Program Link Error: " ++ d.progLog)) := by
  refine ⟨?_, ?_, ?_⟩
  · intro hcv
    simp [ShaderProgram.from_vert_frag, ShaderProgram.new, Shader.from_source, Shader.new,
          hp, hv, hf, hcv, compiledSources, List.filterMap]
  · intro hcv hcf
    simp [ShaderProgram.from_vert_frag, ShaderProgram.new, Shader.from_source, Shader.new,
          hp, hv, hf, hcv, hcf, compiledSources, linkCalls, List.filterMap]
  · intro hcv hcf hl
    simp [ShaderProgram.from_vert_frag, ShaderProgram.new, Shader.from_source, Shader.new,
          ShaderProgram.attach_shader, hp, hv, hf, hcv, hcf, hl]

theorem c4_short_circuit_witness :
    (ShaderProgram.from_vert_frag dVertFail "a" "b").1
      = Except.error ("Vertex Compile Error: " ++ dVertFail.shaderLog "a") ∧
    compiledSources (ShaderProgram.from_vert_frag dVertFail "a" "b").2 = ["a"] := by
  exact (c4_short_circuit dVertFail "a" "b" (by decide) (by decide) (by decide)).1 rfl

/-- C10 counterexample: on the program `⟨1, [97, 5, 98, 7]⟩` built by
`from_vert_frag` on `dOk` from sources "a" and "b", the query string
`"\x07"` has fingerprint 7, which first matches the final list entry (the
fragment shader's handle); `get_shader` then indexes position 4 of a
4-element list — the out-of-bounds panic, modelled as `Except.error ()`. -/
theorem c10_totality_cex :
    (ShaderProgram.from_vert_frag dOk "a" "b").1 = Except.ok ⟨1, [97, 5, 98, 7]⟩ ∧
    ShaderProgram.get_shader ⟨1, [97, 5, 98, 7]⟩ "\x07" = Except.error () := by
  refine ⟨rfl, rfl⟩

/-- C10 (amended): on a program built by `from_vert_frag`, `get_shader`
returns without panicking for every query string whose fingerprint differs
from the final element of the list (the fragment shader's handle); only a
query whose fingerprint first matches that final entry reaches the
out-of-bounds index. -/
theorem c10_totality_amended (d : Device) (vert frag q : String)
    (hp : d.progAlloc ≠ 0) (hv : d.vertAlloc ≠ 0) (hf : d.fragAlloc ≠ 0)
    (hcv : d.compileOk vert = true) (hcf : d.compileOk frag = true)
    (hl : d.linkOk = true) (hq : hash q ≠ d.fragAlloc) :
    ∀ p : ShaderProgram, (ShaderProgram.from_vert_frag d vert frag).1 = Except.ok p →
      ∃ r : Option Nat, ShaderProgram.get_shader p q = Except.ok r := by
  intro p hsucc
  rw [from_vert_frag_success d vert frag hp hv hf hcv hcf hl] at hsucc
  simp only [Except.ok.injEq] at hsucc
  subst hsucc
  simp only [ShaderProgram.get_shader, position]
  by_cases h1 : (hash vert == hash q) = true
  · exact ⟨some d.vertAlloc, by simp [h1]⟩
  · by_cases h2 : (d.vertAlloc == hash q) = true
    · exact ⟨some (hash frag), by simp [h1, h2]⟩
    · by_cases h3 : (hash frag == hash q) = true
      · exact ⟨some d.fragAlloc, by simp [h1, h2, h3]⟩
      · have h4 : (d.fragAlloc == hash q) = false := by
          simp only [beq_eq_false_iff_ne, ne_eq]
          exact fun he => hq (he ▸ rfl)
        exact ⟨none, by simp [h1, h2, h3, h4]⟩

theorem c10_totality_amended_witness :
    hash "c" ≠ dOk.fragAlloc ∧
    ∃ r : Option Nat, ShaderProgram.get_shader ⟨1, [97, 5, 98, 7]⟩ "c" = Except.ok r := by
  refine ⟨by decide, ?_⟩
  exact c10_totality_amended dOk "a" "b" "c"
    (by decide) (by decide) (by decide) rfl rfl rfl (by decide)
    ⟨1, [97, 5, 98, 7]⟩ rfl

/-!
Frame driver (src/main.rs).  `type Vertex = [f32; 3]`; the positions that
occur in the toggle scenario (`0.5`, `-0.5`, `0.0`, `1.0`, `0.5 - k/2.0`
with `k ∈ {-1.0, 1.0}`) are all exactly representable in `f32` and the
arithmetic on them is exact, so the `f32` components are modelled by `ℚ`.
A buffer byte is modelled as a pair `(component value, byte index within
the component)`: the IEEE-754 encoding of a component into its four bytes
is injective, so this abstraction preserves byte count, byte offsets and
distinctness of uploaded data, which is all the claims speak about.
-/

/-- `type Vertex = [f32; 3]` (src/main.rs:15). -/
abbrev Vertex := ℚ × ℚ × ℚ

/-- One modelled buffer byte: a component value and which of its four bytes
this is. -/
abbrev RByte := ℚ × Fin 4

/-- The 12 bytes of one vertex (3 components of 4 bytes each), as
`bytemuck::cast_slice` lays them out. -/
def vertexBytes (v : Vertex) : List RByte :=
  [(v.1, 0), (v.1, 1), (v.1, 2), (v.1, 3),
   (v.2.1, 0), (v.2.1, 1), (v.2.1, 2), (v.2.1, 3),
   (v.2.2, 0), (v.2.2, 1), (v.2.2, 2), (v.2.2, 3)]

/-- `bytemuck::cast_slice` on a vertex slice: the concatenated bytes. -/
def castSlice (vs : List Vertex) : List RByte :=
  (vs.map vertexBytes).flatten

/-- `size_of::<Vertex>()`: 3 components of 4 bytes. -/
def sizeOfVertex : Nat := 12

/-- A GPU buffer store, byte address to byte (`none` beyond the store). -/
abbrev Buffer := Nat → Option RByte

/-- `buffer_sub_data` (src/lib.rs:308-317) / `glBufferSubData`: overwrite
the byte range `[offset, offset + data.len())`, leaving every other byte of
the store unchanged. -/
def buffer_sub_data (buf : Buffer) (data : List RByte) (offset : Nat) : Buffer :=
  fun i => if offset ≤ i ∧ i < offset + data.length then data.get? (i - offset) else buf i

/-- `buffer_data` (src/lib.rs:290-306) / `glBufferData`: replace the whole
backing store. -/
def buffer_data (data : List RByte) : Buffer :=
  fun i => data.get? i

/-- `update_single_vbo` (src/main.rs:154-166): partial upload of the single
vertex `vert` at byte offset `vertex_num * size_of::<Vertex>()`. -/
def update_single_vbo (vertex_num : Nat) (buf : Buffer) (vert : Vertex) : Buffer :=
  buffer_sub_data buf (castSlice [vert]) (vertex_num * sizeOfVertex)

/-- The frame driver state the toggle key touches: the in-memory vertex
list `vert_vec`, the sign `k`, and the vertex buffer's byte store. -/
structure DriverState where
  verts : List Vertex
  k : ℚ
  buf : Buffer

/-- The SPACE branch of the event loop (src/main.rs:105-108):
`vert_vec[2] = [0.5 - k/2.0, 0.5, 0.0]; k = k * -1.0;
vbo = update_single_vbo(2, &vao, vbo, vert_vec[2]);`. -/
def pressSpace (s : DriverState) : DriverState :=
  let newV : Vertex := (1/2 - s.k/2, 1/2, 0)
  { verts := s.verts.set 2 newV
    k := s.k * (-1)
    buf := update_single_vbo 2 s.buf newV }

/-- The initial vertex list of `main` (src/main.rs:85-89). -/
def verts0 : List Vertex :=
  [(1/2, 1/2, 0), (1/2, -1/2, 0), (-1/2, -1/2, 0), (-1/2, 1/2, 0)]

/-- The driver state right after initialization: the four quad vertices,
`k = -1.0`, and the buffer filled by the full upload in `create_vbo`. -/
def initState : DriverState :=
  ⟨verts0, -1, buffer_data (castSlice verts0)⟩

/-- C8: a press of the toggle key mutates exactly the vertex at index 2 of
the in-memory list (to `(1/2 - k/2, 1/2, 0)`), leaves every other vertex
unchanged, and re-uploads only that vertex: the buffer changes only on the
byte range `[2 * sizeOfVertex, 3 * sizeOfVertex)`, where it holds the new
vertex's bytes; two successive presses alternate the vertex between two
positions and restore `k`, so the positions alternate between two fixed
values on successive presses. -/
theorem c8_toggle_frame_effect (s : DriverState) (hlen : 2 < s.verts.length) :
    ((pressSpace s).verts.get? 2 = some (1/2 - s.k/2, 1/2, 0)) ∧
    (∀ i : Nat, i ≠ 2 → (pressSpace s).verts.get? i = s.verts.get? i) ∧
    (∀ i : Nat, i < 2 * sizeOfVertex ∨ 3 * sizeOfVertex ≤ i →
      (pressSpace s).buf i = s.buf i) ∧
    (∀ i : Nat, 2 * sizeOfVertex ≤ i → i < 3 * sizeOfVertex →
      (pressSpace s).buf i
        = (castSlice [(1/2 - s.k/2, 1/2, 0)]).get? (i - 2 * sizeOfVertex)) ∧
    ((pressSpace (pressSpace s)).verts.get? 2 = some (1/2 + s.k/2, 1/2, 0)) ∧
    ((pressSpace (pressSpace s)).k = s.k) := by
  refine ⟨?_, ?_, ?_, ?_, ?_, ?_⟩
  · simp [pressSpace, List.getElem?_set_eq_of_lt _ hlen]
  · intro i hi
    simp [pressSpace, List.getElem?_set_ne (Ne.symm hi)]
  · intro i hi
    have hlen12 : (castSlice [((1 : ℚ)/2 - s.k/2, (1 : ℚ)/2, (0 : ℚ))]).length = 12 := by
      simp [castSlice, vertexBytes]
    simp only [pressSpace, update_single_vbo, buffer_sub_data, hlen12, sizeOfVertex]
    rw [if_neg]
    simp only [sizeOfVertex] at hi
    omega
  · intro i h1 h2
    have hlen12 : (castSlice [((1 : ℚ)/2 - s.k/2, (1 : ℚ)/2, (0 : ℚ))]).length = 12 := by
      simp [castSlice, vertexBytes]
    simp only [pressSpace, update_single_vbo, buffer_sub_data, hlen12, sizeOfVertex]
    rw [if_pos]
    simp only [sizeOfVertex] at h1 h2
    omega
  · simp [pressSpace, List.set_set, List.getElem?_set_eq_of_lt _ hlen,
          neg_div, sub_neg_eq_add]
  · simp only [pressSpace]
    ring

theorem c8_toggle_frame_effect_witness :
    2 < initState.verts.length ∧
    (pressSpace initState).verts.get? 2 = some (1/2 - initState.k/2, 1/2, 0) ∧
    (pressSpace (pressSpace initState)).verts.get? 2
      = some (1/2 + initState.k/2, 1/2, 0) ∧
    ((1 : ℚ)/2 - initState.k/2, (1 : ℚ)/2, (0 : ℚ)) = ((1 : ℚ), (1 : ℚ)/2, (0 : ℚ)) ∧
    ((1 : ℚ)/2 + initState.k/2, (1 : ℚ)/2, (0 : ℚ)) = ((0 : ℚ), (1 : ℚ)/2, (0 : ℚ)) := by
  have hlen : 2 < initState.verts.length := by simp [initState, verts0]
  have h := c8_toggle_frame_effect initState hlen
  refine ⟨hlen, h.1, h.2.2.2.2.1, ?_, ?_⟩
  · have hk : initState.k = -1 := rfl
    rw [hk]; norm_num
  · have hk : initState.k = -1 := rfl
    rw [hk]; norm_num

end RustCad
